import Mathlib

/-!
# tp-uibuilder: the widget factory and the UI tree builder

A shallow embedding of `src/uibuilder.js`.  The script runs on top of the host
API `@tabletop-playground/api` (imported as `tp`).  A host object is represented
by what the script has done to it: the class it was constructed from, the values
passed to its setters, the values appended as children and the handlers added to
its events.  A property the script never assigned is `none` (the host default).

JavaScript values that flow through the script unchanged keep their dynamic
type (`JsValue`): the script never inspects what a children callback returns
beyond calling `forEach`, reading `.w` and indexing `.p`.
-/

namespace UIBuilderJs

/-- A JavaScript number.  The script stores and forwards numbers and never
computes with them. -/
abbrev Number := ℚ

/-- A function value used as an event handler.  The script only registers
handlers, it never calls them, so a handler is known by its identity alone. -/
structure Handler where
  id : Nat
  deriving DecidableEq, Repr

/-- Value of `tp.Color`. -/
structure Color where
  r : Number
  g : Number
  b : Number
  a : Number
  deriving DecidableEq

/-- Value of `tp.Vector`. -/
structure Vector where
  x : Number
  y : Number
  z : Number
  deriving DecidableEq

/-- Exceptions the script can end with. -/
inductive JsError where
  /-- an identifier that is bound nowhere -/
  | referenceError (name : String)
  /-- a property read on `undefined`/`null`, or a call of a non-function -/
  | typeError (what : String)
  /-- an exception thrown inside a caller's callback -/
  | thrown (what : String)
  deriving DecidableEq, Repr

/-- The widget classes of the host API that the factory instantiates. -/
inductive WidgetClass where
  | Text | TextBox | Button | ProgressBar | CheckBox | SelectionBox | Slider
  | Border | WidgetSwitcher | VerticalBox | HorizontalBox | Canvas
  | MultilineTextBox | RichText | ContentButton | ImageWidget | ImageButton
  | LayoutBox
  deriving DecidableEq, Repr

/-- The scalar properties and event registrations of a host widget, as set by
the script.  Each event is a multicast delegate: `add` appends a handler. -/
structure Props where
  text : Option String := none
  isChecked : Option Bool := none
  options : List String := []
  minValue : Option Number := none
  maxValue : Option Number := none
  stepSize : Option Number := none
  color : Option Color := none
  padding : Option (Number × Number × Number × Number) := none
  image : Option String := none
  imageSize : Option (Number × Number) := none
  onTextChanged : List Handler := []
  onClicked : List Handler := []
  onCheckStateChanged : List Handler := []
  onSelectionChanged : List Handler := []
  onValueChanged : List Handler := []
  onImageLoaded : List Handler := []
  deriving DecidableEq

mutual
/-- A JavaScript value of one of the shapes a children callback is expected to
produce or can produce by mistake: a primitive, an array, a plain object (own
data properties, in insertion order) or a host widget. -/
inductive JsValue where
  | undefined
  | null
  | bool (b : Bool)
  | number (n : Number)
  | array (items : List JsValue)
  | object (fields : List (String × JsValue))
  | widget (w : Widget)
/-- A host widget: its class, its scalar properties, the last argument of
`setChild` (if it was called), the arguments of the `addChild(child)` calls in
call order, and the arguments of the `addChild(child, x, y, w, h)` calls in call
order. -/
inductive Widget where
  | mk (cls : WidgetClass) (props : Props) (child : Option JsValue)
      (children : List JsValue) (placed : List CanvasSlot)
/-- One `Canvas.addChild(child, x, y, width, height)` call. -/
inductive CanvasSlot where
  | mk (child x y width height : JsValue)
end

namespace Widget

/-- Class of the widget. -/
def cls : Widget → WidgetClass
  | mk c _ _ _ _ => c

/-- Scalar properties and handlers. -/
def props : Widget → Props
  | mk _ p _ _ _ => p

/-- Argument of the last `setChild`. -/
def child : Widget → Option JsValue
  | mk _ _ c _ _ => c

/-- Arguments of the `addChild(child)` calls, oldest first. -/
def children : Widget → List JsValue
  | mk _ _ _ cs _ => cs

/-- Arguments of the canvas `addChild` calls, oldest first. -/
def placed : Widget → List CanvasSlot
  | mk _ _ _ _ ps => ps

/-- Expression `new tp.C()`: a fresh host widget of class `C`. -/
def create (c : WidgetClass) : Widget := mk c {} none [] []

/-- Apply a change to the scalar properties. -/
def withProps (f : Props → Props) : Widget → Widget
  | mk c p ch cs ps => mk c (f p) ch cs ps

def setText (w : Widget) (text : String) : Widget :=
  w.withProps fun p => { p with text := some text }

def setIsChecked (w : Widget) (v : Bool) : Widget :=
  w.withProps fun p => { p with isChecked := some v }

def addOption (w : Widget) (option : String) : Widget :=
  w.withProps fun p => { p with options := p.options ++ [option] }

def setMinValue (w : Widget) (v : Number) : Widget :=
  w.withProps fun p => { p with minValue := some v }

def setMaxValue (w : Widget) (v : Number) : Widget :=
  w.withProps fun p => { p with maxValue := some v }

def setStepSize (w : Widget) (v : Number) : Widget :=
  w.withProps fun p => { p with stepSize := some v }

def setColor (w : Widget) (c : Color) : Widget :=
  w.withProps fun p => { p with color := some c }

def setPadding (w : Widget) (left right top bottom : Number) : Widget :=
  w.withProps fun p => { p with padding := some (left, right, top, bottom) }

def setImage (w : Widget) (texture : String) : Widget :=
  w.withProps fun p => { p with image := some texture }

def setImageSize (w : Widget) (width height : Number) : Widget :=
  w.withProps fun p => { p with imageSize := some (width, height) }

/-- Call `w.onTextChanged.add(h)`. -/
def addOnTextChanged (w : Widget) (h : Handler) : Widget :=
  w.withProps fun p => { p with onTextChanged := p.onTextChanged ++ [h] }

/-- Call `w.onClicked.add(h)`. -/
def addOnClicked (w : Widget) (h : Handler) : Widget :=
  w.withProps fun p => { p with onClicked := p.onClicked ++ [h] }

/-- Call `w.onCheckStateChanged.add(h)`. -/
def addOnCheckStateChanged (w : Widget) (h : Handler) : Widget :=
  w.withProps fun p => { p with onCheckStateChanged := p.onCheckStateChanged ++ [h] }

/-- Call `w.onSelectionChanged.add(h)`. -/
def addOnSelectionChanged (w : Widget) (h : Handler) : Widget :=
  w.withProps fun p => { p with onSelectionChanged := p.onSelectionChanged ++ [h] }

/-- Call `w.onValueChanged.add(h)`. -/
def addOnValueChanged (w : Widget) (h : Handler) : Widget :=
  w.withProps fun p => { p with onValueChanged := p.onValueChanged ++ [h] }

/-- Call `w.onImageLoaded.add(h)`. -/
def addOnImageLoaded (w : Widget) (h : Handler) : Widget :=
  w.withProps fun p => { p with onImageLoaded := p.onImageLoaded ++ [h] }

/-- Call `w.setChild(v)`: the single child slot now holds `v`. -/
def setChild : Widget → JsValue → Widget
  | mk c p _ cs ps, v => mk c p (some v) cs ps

/-- Call `w.addChild(v)`: `v` becomes the last child. -/
def addChild : Widget → JsValue → Widget
  | mk c p ch cs ps, v => mk c p ch (cs ++ [v]) ps

/-- Call `w.addChild(v, x, y, width, height)` on a canvas. -/
def addChildAt : Widget → JsValue → JsValue → JsValue → JsValue → JsValue → Widget
  | mk c p ch cs ps, v, x, y, width, height =>
      mk c p ch cs (ps ++ [CanvasSlot.mk v x y width height])

end Widget

/-! ## JavaScript operations the factory performs on callback results -/

/-- Property read `v.key` for a data property `key`.  Reading a property of
`undefined` or `null` throws; arrays, primitives and host widgets have no data
property of the names the script reads (`w`, `p`). -/
def member (v : JsValue) (key : String) : Except JsError JsValue :=
  match v with
  | .undefined => .error (.typeError "cannot read properties of undefined")
  | .null => .error (.typeError "cannot read properties of null")
  | .object fields => .ok ((fields.lookup key).getD .undefined)
  | _ => .ok .undefined

/-- Element read `v[i]` for a literal index `i`. -/
def index (v : JsValue) (i : Nat) : Except JsError JsValue :=
  match v with
  | .undefined => .error (.typeError "cannot read properties of undefined")
  | .null => .error (.typeError "cannot read properties of null")
  | .array items => .ok (items.getD i .undefined)
  | .object fields => .ok ((fields.lookup (toString i)).getD .undefined)
  | _ => .ok .undefined

/-- Statement `v.forEach(it => body)` where `body` updates the widget under
construction.  Only arrays have a callable `forEach`; on `undefined`/`null` the
property read throws, on every other value the call of the missing method
throws. -/
def forEach (v : JsValue) (w : Widget) (body : Widget → JsValue → Except JsError Widget) :
    Except JsError Widget :=
  match v with
  | .array items => items.foldlM body w
  | .undefined => .error (.typeError "cannot read properties of undefined")
  | .null => .error (.typeError "cannot read properties of null")
  | _ => .error (.typeError "forEach is not a function")

/-- Names bound at the top level of `uibuilder.js`: the import `tp` and the two
class declarations.  The host classes are not among them; the script reaches
them as properties of `tp`. -/
def topLevelNames : List String := ["tp", "UIBuilder", "WidgetFactory"]

/-- Expression `new X()` for a bare identifier `X`, where a host widget is
expected.  An identifier bound nowhere is a `ReferenceError`; none of the three
bound names constructs a host widget (`tp` is not a constructor, `UIBuilder`
reads `position.x` of a missing argument, a `WidgetFactory` has no setters). -/
def newBare (name : String) : Except JsError Widget :=
  if name ∈ topLevelNames then .error (.typeError "not a widget constructor")
  else .error (.referenceError name)

/-! ## WidgetFactory -/

/-- Class `WidgetFactory`: it has no fields. -/
structure WidgetFactory where
  deriving DecidableEq

/-- A children callback: it receives the factory and returns a value or throws.
An absent or `null` callback argument is `none` at the call site. -/
abbrev Callback := WidgetFactory → Except JsError JsValue

namespace WidgetFactory

/-- Method `text(text)`. -/
def text (_this : WidgetFactory) (text : String) : Widget :=
  let w := (Widget.create .Text).setText text
  w

/-- Method `textbox(text, onTextChanged = null)`. -/
def textbox (_this : WidgetFactory) (text : String) (onTextChanged : Option Handler) : Widget :=
  let w := (Widget.create .TextBox).setText text
  match onTextChanged with
  | some h => w.addOnTextChanged h
  | none => w

/-- Method `button(text, onClicked)`. -/
def button (_this : WidgetFactory) (text : String) (onClicked : Option Handler) : Widget :=
  let w := (Widget.create .Button).setText text
  match onClicked with
  | some h => w.addOnClicked h
  | none => w

/-- Method `progressbar(text)`. -/
def progressbar (_this : WidgetFactory) (text : String) : Widget :=
  let w := (Widget.create .ProgressBar).setText text
  w

/-- Method `checkbox(text, isChecked = false, onCheckStateChanged = null)`; an
omitted `isChecked` is `none`. -/
def checkbox (_this : WidgetFactory) (text : String) (isChecked : Option Bool)
    (onCheckStateChanged : Option Handler) : Widget :=
  let w := ((Widget.create .CheckBox).setText text).setIsChecked (isChecked.getD false)
  match onCheckStateChanged with
  | some h => w.addOnCheckStateChanged h
  | none => w

/-- Method `selectionbox(options, onSelectionChanged = null)`. -/
def selectionbox (_this : WidgetFactory) (options : List String)
    (onSelectionChanged : Option Handler) : Widget :=
  let w := options.foldl (fun w o => w.addOption o) (Widget.create .SelectionBox)
  match onSelectionChanged with
  | some h => w.addOnSelectionChanged h
  | none => w

/-- Method `slider(minValue = 0, maxValue = 1, stepSize = 0.01, onValueChanged = null)`;
an omitted number is `none`. -/
def slider (_this : WidgetFactory) (minValue maxValue stepSize : Option Number)
    (onValueChanged : Option Handler) : Widget :=
  let w := Widget.create .Slider
  let w := w.setMinValue (minValue.getD 0)
  let w := w.setMaxValue (maxValue.getD 1)
  let w := w.setStepSize (stepSize.getD (1 / 100))
  match onValueChanged with
  | some h => w.addOnValueChanged h
  | none => w

/-- Method `border(color, widgetFn)`. -/
def border (this : WidgetFactory) (color : Color) (widgetFn : Option Callback) :
    Except JsError Widget :=
  let w := Widget.create .Border
  let w := w.setColor color
  match widgetFn with
  | some f => do
      let c ← f this
      pure (w.setChild c)
  | none => pure w

/-- Method `widgetswitcher(widgetsFn)`. -/
def widgetswitcher (this : WidgetFactory) (widgetsFn : Option Callback) :
    Except JsError Widget :=
  let w := Widget.create .WidgetSwitcher
  match widgetsFn with
  | some f => do
      let r ← f this
      forEach r w fun w it => pure (w.addChild it)
  | none => pure w

/-- Method `verticalbox(widgetsFn)`. -/
def verticalbox (this : WidgetFactory) (widgetsFn : Option Callback) :
    Except JsError Widget :=
  let w := Widget.create .VerticalBox
  match widgetsFn with
  | some f => do
      let r ← f this
      forEach r w fun w it => pure (w.addChild it)
  | none => pure w

/-- Method `horizontalbox(widgetsFn)`. -/
def horizontalbox (this : WidgetFactory) (widgetsFn : Option Callback) :
    Except JsError Widget :=
  let w := Widget.create .HorizontalBox
  match widgetsFn with
  | some f => do
      let r ← f this
      forEach r w fun w it => pure (w.addChild it)
  | none => pure w

/-- Body of the arrow function in `canvas`:
`w.addChild(it.w, it.p[0], it.p[1], it.p[2], it.p[3])`. -/
def canvasAdd (w : Widget) (it : JsValue) : Except JsError Widget := do
  let c ← member it "w"
  let p ← member it "p"
  let p0 ← index p 0
  let p1 ← index p 1
  let p2 ← index p 2
  let p3 ← index p 3
  pure (w.addChildAt c p0 p1 p2 p3)

/-- Method `canvas(widgetsFn)`. -/
def canvas (this : WidgetFactory) (widgetsFn : Option Callback) : Except JsError Widget :=
  let w := Widget.create .Canvas
  match widgetsFn with
  | some f => do
      let r ← f this
      forEach r w canvasAdd
  | none => pure w

/-- Method `multilinetextbox(onTextChanged = null)`. -/
def multilinetextbox (_this : WidgetFactory) (onTextChanged : Option Handler) : Widget :=
  let w := Widget.create .MultilineTextBox
  match onTextChanged with
  | some h => w.addOnTextChanged h
  | none => w

/-- Method `richtext(text)`. -/
def richtext (_this : WidgetFactory) (text : String) : Widget :=
  (Widget.create .RichText).setText text

/-- Method `contenbutton(onClicked, widgetFn)`. -/
def contenbutton (this : WidgetFactory) (onClicked : Option Handler)
    (widgetFn : Option Callback) : Except JsError Widget :=
  let w := Widget.create .ContentButton
  let w := match onClicked with
    | some h => w.addOnClicked h
    | none => w
  match widgetFn with
  | some f => do
      let c ← f this
      pure (w.setChild c)
  | none => pure w

/-- Method `imagewidget(texture, width, height, onImageLoaded = null)`. -/
def imagewidget (_this : WidgetFactory) (texture : String) (width height : Number)
    (onImageLoaded : Option Handler) : Widget :=
  let w := ((Widget.create .ImageWidget).setImage texture).setImageSize width height
  match onImageLoaded with
  | some h => w.addOnImageLoaded h
  | none => w

/-- Method `imagebutton(texture, width, height, onClicked, onImageLoaded = null)`. -/
def imagebutton (_this : WidgetFactory) (texture : String) (width height : Number)
    (onClicked onImageLoaded : Option Handler) : Widget :=
  let w := ((Widget.create .ImageButton).setImage texture).setImageSize width height
  let w := match onClicked with
    | some h => w.addOnClicked h
    | none => w
  match onImageLoaded with
  | some h => w.addOnImageLoaded h
  | none => w

/-- Method `layoutbox(widgetFn)`. -/
def layoutbox (this : WidgetFactory) (widgetFn : Option Callback) : Except JsError Widget :=
  let w := Widget.create .LayoutBox
  match widgetFn with
  | some f => do
      let c ← f this
      pure (w.setChild c)
  | none => pure w

/-- Lines 401-414 of `frame`, everything after `let w = new Border()`, given the
object `w` that statement produced.  The source attaches `frameBorder` to
`layout1` before it gives `frameBorder` its child, and so on inwards; the host
objects are references, so the tree the source ends with is built here from the
innermost widget outwards.  The callback runs last in the source and is the only
statement of these lines that can throw. -/
def frameBody (this : WidgetFactory) (w : Widget) (frameColor backgroundColor : Color)
    (widgetFn : Option Callback) : Except JsError Widget := do
  let innerBorder := (Widget.create .Border).setColor backgroundColor
  let innerBorder ← match widgetFn with
    | some f => do
        let c ← f this
        pure (innerBorder.setChild c)
    | none => pure innerBorder
  let layout2 := ((Widget.create .LayoutBox).setPadding 1 1 1 1).setChild (.widget innerBorder)
  let frameBorder := ((Widget.create .Border).setColor frameColor).setChild (.widget layout2)
  let layout1 := ((Widget.create .LayoutBox).setPadding 8 8 8 8).setChild (.widget frameBorder)
  let w := w.setColor backgroundColor
  let w := w.setChild (.widget layout1)
  pure w

/-- Method `frame(frameColor, backgroundColor, widgetFn)`.  Its first statement
is `let w = new Border();` with the bare identifier `Border`. -/
def frame (this : WidgetFactory) (frameColor backgroundColor : Color)
    (widgetFn : Option Callback) : Except JsError Widget := do
  let w ← newBare "Border"
  frameBody this w frameColor backgroundColor widgetFn

end WidgetFactory

/-- The `CanvasWidget` typedef: a widget `w` and its placement
`p = [x, y, width, height]`. -/
structure CanvasWidget where
  w : Widget
  p : Number × Number × Number × Number

/-- The object literal `{w: w, p: [x, y, width, height]}`. -/
def CanvasWidget.toJs (it : CanvasWidget) : JsValue :=
  .object [("w", .widget it.w),
    ("p", .array [.number it.p.1, .number it.p.2.1, .number it.p.2.2.1, .number it.p.2.2.2])]

/-- The canvas child that places `it.w` at `it.p`. -/
def CanvasWidget.slot (it : CanvasWidget) : CanvasSlot :=
  .mk (.widget it.w) (.number it.p.1) (.number it.p.2.1) (.number it.p.2.2.1)
    (.number it.p.2.2.2)

/-! ## UIBuilder -/

/-- The two element classes of the host API the builder instantiates. -/
inductive ElementClass where
  | UIElement | ScreenUIElement
  deriving DecidableEq, Repr

/-- A member of the host enumeration `tp.UIPresentationStyle`, by its number. -/
structure UIPresentationStyle where
  value : Nat
  deriving DecidableEq

/-- A `tp.PlayerPermission` object, by its bit mask of player slots. -/
structure PlayerPermission where
  value : Nat
  deriving DecidableEq

/-- A reference to a host `tp.GameObject`. -/
structure GameObject where
  id : Nat
  deriving DecidableEq

/-- A host element (`tp.UIElement` or `tp.ScreenUIElement`): its class and the
properties the script assigned.  `none` is a property never assigned. -/
structure Element where
  cls : ElementClass
  position : Option Vector := none
  positionX : Option Number := none
  positionY : Option Number := none
  widget : Option JsValue := none
  presentationStyle : Option UIPresentationStyle := none
  useWidgetSize : Option Bool := none
  width : Option Number := none
  height : Option Number := none
  players : Option PlayerPermission := none
  anchorX : Option Number := none
  anchorY : Option Number := none

/-- The host state `build` writes to: the screen elements of `tp.world` and the
UI list of every game object, both in order of addition. -/
structure World where
  screenUIs : List Element
  objectUIs : GameObject → List Element

/-- Call `o.addUI(ui)`: `ui` becomes the last entry of the UI list of `o`. -/
def World.addUI (world : World) (o : GameObject) (ui : Element) : World :=
  { world with
    objectUIs := fun o' => if o' = o then world.objectUIs o' ++ [ui] else world.objectUIs o' }

/-- Call `tp.world.addScreenUI(ui)`: `ui` becomes the last screen element. -/
def World.addScreenUI (world : World) (ui : Element) : World :=
  { world with screenUIs := world.screenUIs ++ [ui] }

/-- Class `UIBuilder`: the fields `this.object` (`none` is `null`) and `this.ui`. -/
structure UIBuilder where
  object : Option GameObject
  ui : Element

/-- What a method call on a builder leaves behind: the receiver `this` after
the body ran, and the value of the `return` statement. -/
structure Outcome (ρ : Type) where
  receiver : UIBuilder
  returned : ρ

namespace UIBuilder

/-- The `constructor(o, position, widgetFn)`.  A game object is truthy, `null`
is `none`; the callback receives `new WidgetFactory()`. -/
def constructor (o : Option GameObject) (position : Vector) (widgetFn : Option Callback) :
    Except JsError UIBuilder :=
  let this : UIBuilder :=
    match o with
    | some obj =>
        { object := some obj
          ui := { cls := .UIElement, position := some position } }
    | none =>
        { object := none
          ui := { cls := .ScreenUIElement
                  positionX := some position.x, positionY := some position.y } }
  match widgetFn with
  | some f => do
      let r ← f {}
      pure { this with ui := { this.ui with widget := some r } }
  | none => pure this

/-- Method `build()`: it writes to the host and returns `this.ui`. -/
def build (this : UIBuilder) (world : World) : World × Element :=
  match this.object with
  | some o => (world.addUI o this.ui, this.ui)
  | none => (world.addScreenUI this.ui, this.ui)

/-- Method `presentationStyle(style)`. -/
def presentationStyle (this : UIBuilder) (style : UIPresentationStyle) : Outcome UIBuilder :=
  let this := { this with ui := { this.ui with presentationStyle := some style } }
  ⟨this, this⟩

/-- Method `useWidgetSize(value)`. -/
def useWidgetSize (this : UIBuilder) (value : Bool) : Outcome UIBuilder :=
  let this := { this with ui := { this.ui with useWidgetSize := some value } }
  ⟨this, this⟩

/-- Method `width(value)`. -/
def width (this : UIBuilder) (value : Number) : Outcome UIBuilder :=
  let this := { this with ui := { this.ui with width := some value } }
  ⟨this, this⟩

/-- Method `height(value)`. -/
def height (this : UIBuilder) (value : Number) : Outcome UIBuilder :=
  let this := { this with ui := { this.ui with height := some value } }
  ⟨this, this⟩

/-- Method `playerPermission(value)`: it assigns `this.ui.players`. -/
def playerPermission (this : UIBuilder) (value : PlayerPermission) : Outcome UIBuilder :=
  let this := { this with ui := { this.ui with players := some value } }
  ⟨this, this⟩

/-- Method `anchor(x, y)`. -/
def anchor (this : UIBuilder) (x y : Number) : Outcome UIBuilder :=
  let this := { this with ui := { this.ui with anchorX := some x } }
  let this := { this with ui := { this.ui with anchorY := some y } }
  ⟨this, this⟩

end UIBuilder

/-- The properties of an element, to name the ones a method leaves alone. -/
inductive ElementField where
  | cls | position | positionX | positionY | widget | presentationStyle
  | useWidgetSize | width | height | players | anchorX | anchorY
  deriving DecidableEq, Repr

/-- Elements `e` and `e'` hold the same value in property `k`. -/
def Element.agreeOn (e e' : Element) : ElementField → Prop
  | .cls => e.cls = e'.cls
  | .position => e.position = e'.position
  | .positionX => e.positionX = e'.positionX
  | .positionY => e.positionY = e'.positionY
  | .widget => e.widget = e'.widget
  | .presentationStyle => e.presentationStyle = e'.presentationStyle
  | .useWidgetSize => e.useWidgetSize = e'.useWidgetSize
  | .width => e.width = e'.width
  | .height => e.height = e'.height
  | .players => e.players = e'.players
  | .anchorX => e.anchorX = e'.anchorX
  | .anchorY => e.anchorY = e'.anchorY

/-! ## Results about the widget factory -/

/-- Appending the items of an array one by one with `addChild` never fails and
leaves the children followed by the items. -/
theorem forEach_addChild (items : List JsValue) (c : WidgetClass) (p : Props)
    (ch : Option JsValue) (cs : List JsValue) (ps : List CanvasSlot) :
    forEach (.array items) (Widget.mk c p ch cs ps) (fun w it => pure (w.addChild it))
      = .ok (Widget.mk c p ch (cs ++ items) ps) := by
  induction items generalizing cs with
  | nil => simp [forEach, pure, Except.pure]
  | cons it rest ih =>
      have h := ih (cs ++ [it])
      simp only [forEach] at h ⊢
      simp only [List.foldlM, bind, Except.bind, pure, Except.pure, Widget.addChild] at h ⊢
      rw [h]
      simp

/-- Had the first statement of `frame` produced a fresh border, the rest of the
method would build the two-tone nesting: border(background), layout box padded
by 8, border(frame colour), layout box padded by 1, border(background), content. -/
theorem frameBody_nesting (this : WidgetFactory) (frameColor backgroundColor : Color)
    (f : Callback) (content : JsValue) (hf : f this = .ok content) :
    WidgetFactory.frameBody this (Widget.create .Border) frameColor backgroundColor (some f)
      = .ok (Widget.mk .Border { color := some backgroundColor } (some (.widget
          (Widget.mk .LayoutBox { padding := some (8, 8, 8, 8) } (some (.widget
            (Widget.mk .Border { color := some frameColor } (some (.widget
              (Widget.mk .LayoutBox { padding := some (1, 1, 1, 1) } (some (.widget
                (Widget.mk .Border { color := some backgroundColor } (some content) [] [])))
                [] []))) [] []))) [] []))) [] []) := by
  simp [WidgetFactory.frameBody, hf, bind, Except.bind, pure, Except.pure, Widget.create,
    Widget.setColor, Widget.setPadding, Widget.setChild, Widget.withProps]

/-- C1: `frame` does not return a widget.  For every frame colour, background
colour and content callback (absent or present) the call ends with a
`ReferenceError` for the unbound identifier `Border` of its first statement, so
no nesting of borders and layout boxes is ever returned. -/
theorem frame_throws_referenceError (this : WidgetFactory) (frameColor backgroundColor : Color)
    (widgetFn : Option Callback) :
    WidgetFactory.frame this frameColor backgroundColor widgetFn
      = .error (.referenceError "Border") := by
  simp [WidgetFactory.frame, newBare, topLevelNames, bind, Except.bind]

/-- C2: for `verticalbox`, `horizontalbox` and `widgetswitcher`, when the callback
returns the array of widgets `cs`, the call returns a container whose children
are exactly `cs` in that order: the same length and the same widget at every
index. -/
theorem box_children_in_callback_order (this : WidgetFactory) (f : Callback) (cs : List Widget)
    (hf : f this = .ok (.array (cs.map JsValue.widget))) :
    (∃ w, WidgetFactory.verticalbox this (some f) = .ok w ∧ w.cls = .VerticalBox ∧
        w.children = cs.map JsValue.widget ∧ w.children.length = cs.length ∧
        ∀ (i : Nat) (c : Widget), cs[i]? = some c → w.children[i]? = some (JsValue.widget c)) ∧
    (∃ w, WidgetFactory.horizontalbox this (some f) = .ok w ∧ w.cls = .HorizontalBox ∧
        w.children = cs.map JsValue.widget ∧ w.children.length = cs.length ∧
        ∀ (i : Nat) (c : Widget), cs[i]? = some c → w.children[i]? = some (JsValue.widget c)) ∧
    (∃ w, WidgetFactory.widgetswitcher this (some f) = .ok w ∧ w.cls = .WidgetSwitcher ∧
        w.children = cs.map JsValue.widget ∧ w.children.length = cs.length ∧
        ∀ (i : Nat) (c : Widget), cs[i]? = some c → w.children[i]? = some (JsValue.widget c)) := by
  have key : ∀ k : WidgetClass,
      (do let r ← f this; forEach r (Widget.create k) fun w it => pure (w.addChild it))
        = .ok (Widget.mk k {} none (cs.map JsValue.widget) []) := by
    intro k
    simp only [hf, bind, Except.bind, Widget.create]
    simpa using forEach_addChild (cs.map JsValue.widget) k {} none [] []
  have idx : ∀ (i : Nat) (c : Widget), cs[i]? = some c →
      (cs.map JsValue.widget)[i]? = some (JsValue.widget c) := by
    intro i c h
    simp [List.getElem?_map, h]
  refine ⟨⟨_, key .VerticalBox, rfl, rfl, ?_, idx⟩, ⟨_, key .HorizontalBox, rfl, rfl, ?_, idx⟩,
    ⟨_, key .WidgetSwitcher, rfl, rfl, ?_, idx⟩⟩ <;> simp [Widget.children]

/-- C2, the scenario of the specification: `verticalbox` with a callback that
returns `[text("A"), text("B")]` has two children, first "A", then "B". -/
theorem box_children_in_callback_order_witness :
    (∃ w, WidgetFactory.verticalbox {}
        (some fun wf => .ok (.array [.widget (wf.text "A"), .widget (wf.text "B")])) = .ok w ∧
      w.children = [.widget (WidgetFactory.text {} "A"), .widget (WidgetFactory.text {} "B")] ∧
      w.children.length = 2) := by
  obtain ⟨⟨w, h, _, hc, hl, _⟩, _⟩ := box_children_in_callback_order {}
    (fun wf => .ok (.array [.widget (wf.text "A"), .widget (wf.text "B")]))
    [WidgetFactory.text {} "A", WidgetFactory.text {} "B"] rfl
  exact ⟨w, h, hc, hl⟩

/-- Adding one well-formed canvas item never fails and appends its slot. -/
theorem canvasAdd_toJs (it : CanvasWidget) (c : WidgetClass) (p : Props)
    (ch : Option JsValue) (cs : List JsValue) (ps : List CanvasSlot) :
    WidgetFactory.canvasAdd (Widget.mk c p ch cs ps) it.toJs
      = .ok (Widget.mk c p ch cs (ps ++ [it.slot])) := by
  simp [WidgetFactory.canvasAdd, CanvasWidget.toJs, CanvasWidget.slot, member, index,
    List.lookup, bind, Except.bind, pure, Except.pure, Widget.addChildAt]

/-- Adding the well-formed items of an array to a canvas appends their slots in
order. -/
theorem forEach_canvasAdd (items : List CanvasWidget) (c : WidgetClass) (p : Props)
    (ch : Option JsValue) (cs : List JsValue) (ps : List CanvasSlot) :
    forEach (.array (items.map CanvasWidget.toJs)) (Widget.mk c p ch cs ps)
        WidgetFactory.canvasAdd
      = .ok (Widget.mk c p ch cs (ps ++ items.map CanvasWidget.slot)) := by
  induction items generalizing ps with
  | nil => simp [forEach, pure, Except.pure]
  | cons it rest ih =>
      have h := ih (ps ++ [it.slot])
      simp only [forEach] at h ⊢
      simp only [List.map_cons, List.foldlM, canvasAdd_toJs, bind, Except.bind] at h ⊢
      rw [h]
      simp

/-- C3, as stated, fails: `verticalbox` with a callback that returns the bare
widget `text("A")` does not return a container. -/
theorem verticalbox_bare_widget_throws :
    WidgetFactory.verticalbox {} (some fun wf => .ok (.widget (wf.text "A")))
        = .error (.typeError "forEach is not a function") ∧
      ¬ ∃ w, WidgetFactory.verticalbox {} (some fun wf => .ok (.widget (wf.text "A")))
        = .ok w := by
  constructor
  · rfl
  · rintro ⟨w, h⟩
    cases h

/-- C3, amended: a callback that returns a bare widget `c` is accepted by the
single-child kinds `border`, `layoutbox` and `contenbutton`, whose result has
`c` as its child and nothing else; the multi-child kinds `verticalbox`,
`horizontalbox`, `widgetswitcher` and `canvas` call `forEach` on the result and
throw a `TypeError`. -/
theorem bare_widget_callback_by_kind (this : WidgetFactory) (f : Callback) (c : Widget)
    (hf : f this = .ok (.widget c)) :
    (∀ color, WidgetFactory.border this color (some f)
        = .ok (Widget.mk .Border { color := some color } (some (.widget c)) [] [])) ∧
    WidgetFactory.layoutbox this (some f)
        = .ok (Widget.mk .LayoutBox {} (some (.widget c)) [] []) ∧
    (∀ h : Option Handler, WidgetFactory.contenbutton this h (some f)
        = .ok (Widget.mk .ContentButton { onClicked := h.toList } (some (.widget c)) [] [])) ∧
    WidgetFactory.verticalbox this (some f) = .error (.typeError "forEach is not a function") ∧
    WidgetFactory.horizontalbox this (some f)
        = .error (.typeError "forEach is not a function") ∧
    WidgetFactory.widgetswitcher this (some f)
        = .error (.typeError "forEach is not a function") ∧
    WidgetFactory.canvas this (some f) = .error (.typeError "forEach is not a function") := by
  refine ⟨?_, ?_, ?_, ?_, ?_, ?_, ?_⟩
  · intro color
    simp [WidgetFactory.border, hf, bind, Except.bind, pure, Except.pure, Widget.create,
      Widget.setColor, Widget.setChild, Widget.withProps]
  · simp [WidgetFactory.layoutbox, hf, bind, Except.bind, pure, Except.pure, Widget.create,
      Widget.setChild]
  · intro h
    cases h <;>
      simp [WidgetFactory.contenbutton, hf, bind, Except.bind, pure, Except.pure,
        Widget.create, Widget.setChild, Widget.addOnClicked, Widget.withProps]
  · simp [WidgetFactory.verticalbox, hf, bind, Except.bind, forEach]
  · simp [WidgetFactory.horizontalbox, hf, bind, Except.bind, forEach]
  · simp [WidgetFactory.widgetswitcher, hf, bind, Except.bind, forEach]
  · simp [WidgetFactory.canvas, hf, bind, Except.bind, forEach]

/-- C3, amended, at the callback `wf => wf.text("A")`. -/
theorem bare_widget_callback_by_kind_witness :
    WidgetFactory.layoutbox {} (some fun wf => .ok (.widget (wf.text "A")))
        = .ok (Widget.mk .LayoutBox {} (some (.widget (WidgetFactory.text {} "A"))) [] []) ∧
    WidgetFactory.canvas {} (some fun wf => .ok (.widget (wf.text "A")))
        = .error (.typeError "forEach is not a function") :=
  have h := bare_widget_callback_by_kind {} (fun wf => .ok (.widget (wf.text "A")))
    (WidgetFactory.text {} "A") rfl
  ⟨h.2.1, h.2.2.2.2.2.2⟩

/-- C5: when the callback returns the array of `n` pairs `{w, p}`, `canvas`
returns a canvas with exactly `n` children, the `i`-th being the `i`-th pair's
widget placed at that pair's `(x, y, width, height)`. -/
theorem canvas_children_keep_placement (this : WidgetFactory) (f : Callback)
    (items : List CanvasWidget) (hf : f this = .ok (.array (items.map CanvasWidget.toJs))) :
    ∃ w, WidgetFactory.canvas this (some f) = .ok w ∧ w.cls = .Canvas ∧
      w.placed.length = items.length ∧
      (∀ (i : Nat) (it : CanvasWidget), items[i]? = some it →
        w.placed[i]? = some (CanvasSlot.mk (.widget it.w) (.number it.p.1) (.number it.p.2.1)
          (.number it.p.2.2.1) (.number it.p.2.2.2))) ∧
      w.children = [] ∧ w.child = none := by
  refine ⟨Widget.mk .Canvas {} none [] (items.map CanvasWidget.slot), ?_, rfl, ?_, ?_, rfl, rfl⟩
  · simp only [WidgetFactory.canvas, hf, bind, Except.bind, Widget.create]
    simpa using forEach_canvasAdd items .Canvas {} none [] []
  · simp [Widget.placed]
  · intro i it h
    simp [Widget.placed, List.getElem?_map, h, CanvasWidget.slot]

/-- C5 at a canvas of two placed texts. -/
theorem canvas_children_keep_placement_witness :
    ∃ w, WidgetFactory.canvas {} (some fun wf => .ok (.array
          [CanvasWidget.toJs ⟨wf.text "A", (0, 0, 100, 20)⟩,
           CanvasWidget.toJs ⟨wf.text "B", (0, 30, 100, 20)⟩])) = .ok w ∧
      w.placed.length = 2 := by
  obtain ⟨w, h, _, hl, _⟩ := canvas_children_keep_placement {}
    (fun wf => .ok (.array
          [CanvasWidget.toJs ⟨wf.text "A", (0, 0, 100, 20)⟩,
           CanvasWidget.toJs ⟨wf.text "B", (0, 30, 100, 20)⟩]))
    [⟨WidgetFactory.text {} "A", (0, 0, 100, 20)⟩, ⟨WidgetFactory.text {} "B", (0, 30, 100, 20)⟩]
    rfl
  exact ⟨w, h, hl⟩

/-- C6: every interactive widget constructor registers, for each of its events,
no handler when the callback argument is absent or `null` and exactly the
supplied handler otherwise: the handler list equals `toList` of the optional
argument (`[]` for `none`, `[h]` for `some h`).  The content button takes a
content callback as well; it is absent or returns a value `c`.  The
specification's scenario `checkbox("one", true)` is a checked box with no
check-state handler. -/
theorem handler_lists_follow_arguments (this : WidgetFactory) (widgetFn : Option Callback)
    (c : JsValue) (hc : ∀ f, widgetFn = some f → f this = .ok c) :
    (∀ t (ho : Option Handler), (this.button t ho).props.onClicked = ho.toList) ∧
    (∀ t k (ho : Option Handler),
      (this.checkbox t k ho).props.onCheckStateChanged = ho.toList) ∧
    (∀ t (ho : Option Handler), (this.textbox t ho).props.onTextChanged = ho.toList) ∧
    (∀ ho : Option Handler, (this.multilinetextbox ho).props.onTextChanged = ho.toList) ∧
    (∀ os (ho : Option Handler),
      (this.selectionbox os ho).props.onSelectionChanged = ho.toList) ∧
    (∀ lo hi st (ho : Option Handler),
      (this.slider lo hi st ho).props.onValueChanged = ho.toList) ∧
    (∀ ho : Option Handler, ∃ w, this.contenbutton ho widgetFn = .ok w ∧
      w.props.onClicked = ho.toList) ∧
    (∀ tx wd ht (ho : Option Handler),
      (this.imagewidget tx wd ht ho).props.onImageLoaded = ho.toList) ∧
    (∀ tx wd ht (hClick hLoad : Option Handler),
      (this.imagebutton tx wd ht hClick hLoad).props.onClicked = hClick.toList ∧
      (this.imagebutton tx wd ht hClick hLoad).props.onImageLoaded = hLoad.toList) ∧
    this.checkbox "one" (some true) none
      = Widget.mk .CheckBox { text := some "one", isChecked := some true } none [] [] := by
  refine ⟨?_, ?_, ?_, ?_, ?_, ?_, ?_, ?_, ?_, rfl⟩
  · intro t ho
    cases ho <;> rfl
  · intro t k ho
    cases ho <;> rfl
  · intro t ho
    cases ho <;> rfl
  · intro ho
    cases ho <;> rfl
  · intro os ho
    have key : ∀ (l : List String) (w : Widget),
        (l.foldl (fun w o => w.addOption o) w).props.onSelectionChanged
          = w.props.onSelectionChanged := by
      intro l
      induction l with
      | nil => intro w; rfl
      | cons o l ih =>
          intro w
          rw [List.foldl_cons, ih]
          cases w
          rfl
    have base := key os (Widget.create .SelectionBox)
    cases ho with
    | none => simpa [WidgetFactory.selectionbox] using base
    | some h =>
        simp only [WidgetFactory.selectionbox, Option.toList]
        generalize os.foldl (fun w o => w.addOption o) (Widget.create .SelectionBox) = w at base
        cases w
        simp only [Widget.props, Widget.create] at base
        simp [Widget.addOnSelectionChanged, Widget.withProps, Widget.props, base]
  · intro lo hi st ho
    cases ho <;> rfl
  · intro ho
    cases widgetFn with
    | none => cases ho <;> exact ⟨_, rfl, rfl⟩
    | some f =>
        have hf := hc f rfl
        cases ho with
        | none =>
            refine ⟨(Widget.create .ContentButton).setChild c, ?_, rfl⟩
            simp [WidgetFactory.contenbutton, hf, bind, Except.bind, pure, Except.pure]
        | some h =>
            refine ⟨((Widget.create .ContentButton).addOnClicked h).setChild c, ?_, rfl⟩
            simp [WidgetFactory.contenbutton, hf, bind, Except.bind, pure, Except.pure]
  · intro tx wd ht ho
    cases ho <;> rfl
  · intro tx wd ht hClick hLoad
    cases hClick <;> cases hLoad <;> exact ⟨rfl, rfl⟩

/-- C6 at a content button whose content callback returns `text("x")`. -/
theorem handler_lists_follow_arguments_witness :
    (∀ t (ho : Option Handler), (WidgetFactory.button {} t ho).props.onClicked = ho.toList) ∧
    (∀ ho : Option Handler, ∃ w,
      WidgetFactory.contenbutton {} ho (some fun wf => .ok (.widget (wf.text "x"))) = .ok w ∧
        w.props.onClicked = ho.toList) :=
  have h := handler_lists_follow_arguments {}
    (some fun wf => .ok (.widget (wf.text "x"))) (.widget (WidgetFactory.text {} "x"))
    (fun f hf => by cases hf; rfl)
  ⟨h.1, h.2.2.2.2.2.2.1⟩

/-- Every factory method other than `frame`, and the builder's constructor,
accept an absent callback: the container has no child, the widget no handler,
the element no root widget. -/
theorem absent_callbacks_accepted (this : WidgetFactory) :
    (∀ color, this.border color none = .ok (Widget.mk .Border { color := some color } none [] [])) ∧
    this.widgetswitcher none = .ok (Widget.mk .WidgetSwitcher {} none [] []) ∧
    this.verticalbox none = .ok (Widget.mk .VerticalBox {} none [] []) ∧
    this.horizontalbox none = .ok (Widget.mk .HorizontalBox {} none [] []) ∧
    this.canvas none = .ok (Widget.mk .Canvas {} none [] []) ∧
    this.layoutbox none = .ok (Widget.mk .LayoutBox {} none [] []) ∧
    this.contenbutton none none = .ok (Widget.mk .ContentButton {} none [] []) ∧
    (∀ t, this.button t none = Widget.mk .Button { text := some t } none [] []) ∧
    (∀ t, this.textbox t none = Widget.mk .TextBox { text := some t } none [] []) ∧
    this.multilinetextbox none = Widget.mk .MultilineTextBox {} none [] [] ∧
    (∀ o position, ∃ b, UIBuilder.constructor o position none = .ok b ∧ b.ui.widget = none) := by
  refine ⟨fun _ => rfl, rfl, rfl, rfl, rfl, rfl, rfl, fun _ => rfl, fun _ => rfl, rfl, ?_⟩
  intro o position
  cases o <;> exact ⟨_, rfl, rfl⟩

/-- C9: `frame` with an absent content callback does not return a frame with an
empty innermost border; the call ends with the `ReferenceError` of its first
statement. -/
theorem frame_absent_callback_throws :
    WidgetFactory.frame {} ⟨1, 1, 1, 1⟩ ⟨0, 0, 0, 1⟩ none = .error (.referenceError "Border") ∧
      ¬ ∃ w, WidgetFactory.frame {} ⟨1, 1, 1, 1⟩ ⟨0, 0, 0, 1⟩ none = .ok w := by
  have h : WidgetFactory.frame {} ⟨1, 1, 1, 1⟩ ⟨0, 0, 0, 1⟩ none
      = .error (.referenceError "Border") := by
    simp [WidgetFactory.frame, newBare, topLevelNames, bind, Except.bind]
  refine ⟨h, ?_⟩
  rintro ⟨w, hw⟩
  rw [h] at hw
  cases hw

/-! ## Results about the builder -/

/-- C4: for every position and every root callback that is absent or returns a
value `r`, the constructor without a target yields a `ScreenUIElement` with
`positionX`/`positionY` equal to the position's `x`/`y`, no `position`
property, and a result that does not depend on the position's `z`; with a target
`o` it yields a `UIElement` whose `position` is the supplied vector and whose
builder holds `o`. -/
theorem constructor_chooses_element (position : Vector) (widgetFn : Option Callback)
    (r : JsValue) (hr : ∀ f, widgetFn = some f → f {} = .ok r) :
    UIBuilder.constructor none position widgetFn
      = .ok { object := none
              ui := { cls := .ScreenUIElement
                      positionX := some position.x, positionY := some position.y
                      position := none
                      widget := widgetFn.map fun _ => r } } ∧
    (∀ z, UIBuilder.constructor none { position with z := z } widgetFn
      = UIBuilder.constructor none position widgetFn) ∧
    (∀ o, UIBuilder.constructor (some o) position widgetFn
      = .ok { object := some o
              ui := { cls := .UIElement
                      position := some position
                      positionX := none, positionY := none
                      widget := widgetFn.map fun _ => r } }) := by
  cases widgetFn with
  | none => exact ⟨rfl, fun _ => rfl, fun _ => rfl⟩
  | some f =>
      have hf := hr f rfl
      refine ⟨?_, fun _ => ?_, fun _ => ?_⟩ <;>
        simp [UIBuilder.constructor, hf, bind, Except.bind, pure, Except.pure]

/-- C4 at the message box's position `(0.5, 0.5, 0)` and a root callback that
returns a text. -/
theorem constructor_chooses_element_witness :
    UIBuilder.constructor none ⟨1 / 2, 1 / 2, 0⟩ (some fun wf => .ok (.widget (wf.text "x")))
      = .ok { object := none
              ui := { cls := .ScreenUIElement
                      positionX := some (1 / 2), positionY := some (1 / 2)
                      widget := some (.widget (WidgetFactory.text {} "x")) } } :=
  (constructor_chooses_element ⟨1 / 2, 1 / 2, 0⟩ (some fun wf => .ok (.widget (wf.text "x")))
    (.widget (WidgetFactory.text {} "x")) (fun f hf => by cases hf; rfl)).1

/-- C7: `build` returns the builder's own element.  With a target `o` the
element becomes the last entry of the UI list of `o`, every other object's list
and the screen elements stay as they were; without a target the element becomes
the last screen element and every object's list stays as it was. -/
theorem build_attaches_element (b : UIBuilder) (world : World) :
    (b.build world).2 = b.ui ∧
    (∀ o, b.object = some o →
      (b.build world).1.objectUIs o = world.objectUIs o ++ [b.ui] ∧
      (∀ o', o' ≠ o → (b.build world).1.objectUIs o' = world.objectUIs o') ∧
      (b.build world).1.screenUIs = world.screenUIs) ∧
    (b.object = none →
      (b.build world).1.screenUIs = world.screenUIs ++ [b.ui] ∧
      ∀ o', (b.build world).1.objectUIs o' = world.objectUIs o') := by
  refine ⟨?_, ?_, ?_⟩
  · cases h : b.object <;> simp [UIBuilder.build, h]
  · intro o h
    refine ⟨?_, ?_, ?_⟩
    · simp [UIBuilder.build, h, World.addUI]
    · intro o' hne
      simp [UIBuilder.build, h, World.addUI, hne]
    · simp [UIBuilder.build, h, World.addUI]
  · intro h
    refine ⟨?_, ?_⟩
    · simp [UIBuilder.build, h, World.addScreenUI]
    · intro o'
      simp [UIBuilder.build, h, World.addScreenUI]

/-- C7 at a builder with target object 7 and a world that already holds one
element on that object. -/
theorem build_attaches_element_witness :
    (UIBuilder.build ⟨some ⟨7⟩, { cls := .UIElement }⟩
        ⟨[], fun _ => [{ cls := .UIElement, width := some 1 }]⟩).1.objectUIs ⟨7⟩
      = [{ cls := .UIElement, width := some 1 }, { cls := .UIElement }] :=
  ((build_attaches_element ⟨some ⟨7⟩, { cls := .UIElement }⟩
      ⟨[], fun _ => [{ cls := .UIElement, width := some 1 }]⟩).2.1 ⟨7⟩ rfl).1

/-- C8: each fluent method returns its receiver and has stored exactly the
supplied value in the element property of its name (`playerPermission` in
`players`, `anchor` in `anchorX` and `anchorY`).  The methods are total: no value
is rejected or altered, a negative width or height and an anchor outside
`[0, 1]` included. -/
theorem setters_store_argument_and_return_this (b : UIBuilder) :
    (∀ s, (b.presentationStyle s).returned = (b.presentationStyle s).receiver ∧
      (b.presentationStyle s).receiver.ui.presentationStyle = some s) ∧
    (∀ u, (b.useWidgetSize u).returned = (b.useWidgetSize u).receiver ∧
      (b.useWidgetSize u).receiver.ui.useWidgetSize = some u) ∧
    (∀ v, (b.width v).returned = (b.width v).receiver ∧
      (b.width v).receiver.ui.width = some v) ∧
    (∀ h, (b.height h).returned = (b.height h).receiver ∧
      (b.height h).receiver.ui.height = some h) ∧
    (∀ q, (b.playerPermission q).returned = (b.playerPermission q).receiver ∧
      (b.playerPermission q).receiver.ui.players = some q) ∧
    (∀ x y, (b.anchor x y).returned = (b.anchor x y).receiver ∧
      (b.anchor x y).receiver.ui.anchorX = some x ∧
      (b.anchor x y).receiver.ui.anchorY = some y) ∧
    (b.width (-320)).receiver.ui.width = some (-320) ∧
    (b.height (-240)).receiver.ui.height = some (-240) ∧
    (b.anchor 2 (-1)).receiver.ui.anchorX = some 2 ∧
    (b.anchor 2 (-1)).receiver.ui.anchorY = some (-1) :=
  ⟨fun _ => ⟨rfl, rfl⟩, fun _ => ⟨rfl, rfl⟩, fun _ => ⟨rfl, rfl⟩, fun _ => ⟨rfl, rfl⟩,
    fun _ => ⟨rfl, rfl⟩, fun _ _ => ⟨rfl, rfl, rfl⟩, rfl, rfl, rfl, rfl⟩

/-- C10: each fluent method leaves the attachment target and every element
property other than its own as they were (the root widget included); `anchor`
changes `anchorX` and `anchorY` only.  Hence two different fluent methods
commute, and of two calls of the same method the second one is the one that
counts. -/
theorem setters_change_only_their_field (b : UIBuilder) :
    (∀ s, (b.presentationStyle s).receiver.object = b.object ∧
      ∀ k, k ≠ .presentationStyle → (b.presentationStyle s).receiver.ui.agreeOn b.ui k) ∧
    (∀ u, (b.useWidgetSize u).receiver.object = b.object ∧
      ∀ k, k ≠ .useWidgetSize → (b.useWidgetSize u).receiver.ui.agreeOn b.ui k) ∧
    (∀ v, (b.width v).receiver.object = b.object ∧
      ∀ k, k ≠ .width → (b.width v).receiver.ui.agreeOn b.ui k) ∧
    (∀ h, (b.height h).receiver.object = b.object ∧
      ∀ k, k ≠ .height → (b.height h).receiver.ui.agreeOn b.ui k) ∧
    (∀ q, (b.playerPermission q).receiver.object = b.object ∧
      ∀ k, k ≠ .players → (b.playerPermission q).receiver.ui.agreeOn b.ui k) ∧
    (∀ x y, (b.anchor x y).receiver.object = b.object ∧
      ∀ k, k ≠ .anchorX → k ≠ .anchorY → (b.anchor x y).receiver.ui.agreeOn b.ui k) ∧
    (∀ s u v h q x y s' u' v' h' q' x' y',
    ((b.presentationStyle s).returned.useWidgetSize u).returned = ((b.useWidgetSize u).returned.presentationStyle s).returned ∧
    ((b.presentationStyle s).returned.width v).returned = ((b.width v).returned.presentationStyle s).returned ∧
    ((b.presentationStyle s).returned.height h).returned = ((b.height h).returned.presentationStyle s).returned ∧
    ((b.presentationStyle s).returned.playerPermission q).returned = ((b.playerPermission q).returned.presentationStyle s).returned ∧
    ((b.presentationStyle s).returned.anchor x y).returned = ((b.anchor x y).returned.presentationStyle s).returned ∧
    ((b.useWidgetSize u).returned.width v).returned = ((b.width v).returned.useWidgetSize u).returned ∧
    ((b.useWidgetSize u).returned.height h).returned = ((b.height h).returned.useWidgetSize u).returned ∧
    ((b.useWidgetSize u).returned.playerPermission q).returned = ((b.playerPermission q).returned.useWidgetSize u).returned ∧
    ((b.useWidgetSize u).returned.anchor x y).returned = ((b.anchor x y).returned.useWidgetSize u).returned ∧
    ((b.width v).returned.height h).returned = ((b.height h).returned.width v).returned ∧
    ((b.width v).returned.playerPermission q).returned = ((b.playerPermission q).returned.width v).returned ∧
    ((b.width v).returned.anchor x y).returned = ((b.anchor x y).returned.width v).returned ∧
    ((b.height h).returned.playerPermission q).returned = ((b.playerPermission q).returned.height h).returned ∧
    ((b.height h).returned.anchor x y).returned = ((b.anchor x y).returned.height h).returned ∧
    ((b.playerPermission q).returned.anchor x y).returned = ((b.anchor x y).returned.playerPermission q).returned ∧
    ((b.presentationStyle s).returned.presentationStyle s').returned
      = (b.presentationStyle s').returned ∧
    ((b.useWidgetSize u).returned.useWidgetSize u').returned = (b.useWidgetSize u').returned ∧
    ((b.width v).returned.width v').returned = (b.width v').returned ∧
    ((b.height h).returned.height h').returned = (b.height h').returned ∧
    ((b.playerPermission q).returned.playerPermission q').returned
      = (b.playerPermission q').returned ∧
    ((b.anchor x y).returned.anchor x' y').returned = (b.anchor x' y').returned) := by
  refine ⟨?_, ?_, ?_, ?_, ?_, ?_, ?_⟩
  · intro s
    refine ⟨rfl, fun k hk => ?_⟩
    cases k <;> first | rfl | exact absurd rfl hk
  · intro u
    refine ⟨rfl, fun k hk => ?_⟩
    cases k <;> first | rfl | exact absurd rfl hk
  · intro v
    refine ⟨rfl, fun k hk => ?_⟩
    cases k <;> first | rfl | exact absurd rfl hk
  · intro h
    refine ⟨rfl, fun k hk => ?_⟩
    cases k <;> first | rfl | exact absurd rfl hk
  · intro q
    refine ⟨rfl, fun k hk => ?_⟩
    cases k <;> first | rfl | exact absurd rfl hk
  · intro x y
    refine ⟨rfl, fun k hx hy => ?_⟩
    cases k <;> first | rfl | exact absurd rfl hx | exact absurd rfl hy
  · intro s u v h q x y s' u' v' h' q' x' y'
    exact ⟨rfl, rfl, rfl, rfl, rfl, rfl, rfl, rfl, rfl, rfl, rfl, rfl, rfl, rfl, rfl, rfl, rfl, rfl, rfl, rfl, rfl⟩

/-- C10 at the chain of the message box, `width(320).height(240)`, against the
opposite order. -/
theorem setters_change_only_their_field_witness :
    ((UIBuilder.width ⟨none, { cls := .ScreenUIElement }⟩ 320).returned.height 240).returned
      = ((UIBuilder.height ⟨none, { cls := .ScreenUIElement }⟩ 240).returned.width 320).returned ∧
    (UIBuilder.width ⟨none, { cls := .ScreenUIElement }⟩ 320).receiver.ui.agreeOn
      { cls := .ScreenUIElement } .height :=
  have t := setters_change_only_their_field ⟨none, { cls := .ScreenUIElement }⟩
  ⟨(t.2.2.2.2.2.2 ⟨0⟩ false 320 240 ⟨0⟩ 0 0 ⟨0⟩ false 320 240 ⟨0⟩ 0 0).2.2.2.2.2.2.2.2.2.1,
    (t.2.2.1 320).2 .height (by decide)⟩

end UIBuilderJs
